import Mathlib

/-!
# VES render targets and vertex attributes

A shallow embedding of `vesRenderToTexture` (setTexture, texture, setup,
render) and of the position / normal vertex attributes of
`vesVertexAttribute.h`.

GPU calls are recorded in a call trace (`List GLCall`).  Every method that
talks to the GPU takes the trace so far and returns the extended trace.
Methods that can run into undefined behaviour or a failing `assert` return
`Except Fault _`.
-/

namespace VES

/-! ## OpenGL ES 2 constants (values of the GLES2 header) -/

def GL_FRAMEBUFFER : Nat := 0x8D40
def GL_RENDERBUFFER : Nat := 0x8D41
def GL_DEPTH_COMPONENT16 : Nat := 0x81A5
def GL_TEXTURE_2D : Nat := 0x0DE1
def GL_COLOR_ATTACHMENT0 : Nat := 0x8CE0
def GL_DEPTH_ATTACHMENT : Nat := 0x8D00
def GL_FLOAT : Nat := 0x1406

/-- One GPU call, with the values of its arguments.  The two generating calls
also record the name the driver wrote through the output pointer. -/
inductive GLCall where
  | glGenFramebuffers (n : Nat) (out : Nat)
  | glBindFramebuffer (target : Nat) (framebuffer : Nat)
  | glGenRenderbuffers (n : Nat) (out : Nat)
  | glBindRenderbuffer (target : Nat) (renderbuffer : Nat)
  | glRenderbufferStorage (target : Nat) (internalformat : Nat) (width : Int) (height : Int)
  | glBindTexture (target : Nat) (texture : Nat)
  | glFramebufferTexture2D (target : Nat) (attachment : Nat) (textarget : Nat)
      (texture : Nat) (level : Nat)
  | glFramebufferRenderbuffer (target : Nat) (attachment : Nat) (renderbuffertarget : Nat)
      (renderbuffer : Nat)
  | glVertexAttribPointer (index : Nat) (size : Nat) (type : Nat) (normalized : Nat)
      (stride : Nat) (pointer : Nat)
  | glEnableVertexAttribArray (index : Nat)
  | glDisableVertexAttribArray (index : Nat)
  deriving DecidableEq

/-- The GPU driver picks the object names handed out by `glGenFramebuffers`
and `glGenRenderbuffers`; the name may depend on everything issued so far. -/
structure GLDriver where
  genFramebuffers : List GLCall → Nat
  genRenderbuffers : List GLCall → Nat

/-- Ways a call can fail to return normally. -/
inductive Fault where
  | assertionFailed
  | nullDereference
  | backOfEmptyVector
  | endIteratorDereference
  deriving DecidableEq

/-! ## Data model -/

/-- `vesRenderTarget::AttachmentType` (vesRenderTarget.h, lines 50-54). -/
inductive AttachmentType where
  | ColorAttachment0
  | DepthAttachment
  deriving DecidableEq

/-- Numeric value of an enumerator; it is the key order of the attachment map. -/
def AttachmentType.toNat : AttachmentType → Nat
  | .ColorAttachment0 => GL_COLOR_ATTACHMENT0
  | .DepthAttachment => GL_DEPTH_ATTACHMENT

/-- A `vesTexture*`: an address, `0` being the null pointer. -/
abbrev TexPtr := Nat

/-- What the render target reads from a texture object through its accessors
`width()`, `height()` and `textureHandle()`. -/
structure vesTexture where
  width : Int
  height : Int
  textureHandle : Nat
  deriving DecidableEq

/-- Mapped value of the attachment map; the code only uses `m_texture`. -/
structure Attachment where
  m_texture : TexPtr
  deriving DecidableEq

/-- Strict key order of two map entries. -/
def entryLt (a b : AttachmentType × Attachment) : Prop := a.1.toNat < b.1.toNat

instance (a b : AttachmentType × Attachment) : Decidable (entryLt a b) :=
  inferInstanceAs (Decidable (a.1.toNat < b.1.toNat))

/-- A `std::map<AttachmentType, Attachment>`: its entries in iteration order,
which is strictly increasing key order. -/
structure BufferAttachmentMap where
  entries : List (AttachmentType × Attachment)
  ordered : entries.Pairwise entryLt

namespace BufferAttachmentMap

/-- The empty map. -/
def empty : BufferAttachmentMap := ⟨[], List.Pairwise.nil⟩

/-- `std::map::find`: the entry with key `k`; `none` stands for `end()`. -/
def find (m : BufferAttachmentMap) (k : AttachmentType) :
    Option (AttachmentType × Attachment) :=
  m.entries.find? (fun e => decide (e.1 = k))

/-- `std::map::begin`: the entry with the smallest key; `none` stands for `end()`. -/
def begin (m : BufferAttachmentMap) : Option (AttachmentType × Attachment) :=
  m.entries.head?

end BufferAttachmentMap

/-- The fields of `vesFBORenderTarget::vesInternal` that vesRenderToTexture.cpp uses. -/
structure vesInternal where
  m_frameBufferHandle : Nat
  m_renderBuffersHandle : List Nat
  m_bufferAttachmentMap : BufferAttachmentMap

/-- State of one `vesRenderToTexture` object: the dirty flag inherited from
`vesObject` and the private part of `vesFBORenderTarget`. -/
structure vesRenderToTexture where
  m_dirtyState : Bool
  m_internal : vesInternal

namespace vesRenderToTexture

/-- `vesObject::setDirtyStateOn`. -/
def setDirtyStateOn (self : vesRenderToTexture) : vesRenderToTexture :=
  { self with m_dirtyState := true }

/-- `vesObject::setDirtyStateOff`. -/
def setDirtyStateOff (self : vesRenderToTexture) : vesRenderToTexture :=
  { self with m_dirtyState := false }

/-- Type of `vesFBORenderTarget::attach` (vesFBORenderTarget.h, line 36).  Its
body is not part of the sources, so the methods below take it as a parameter. -/
abbrev AttachFn := vesRenderToTexture → AttachmentType → TexPtr → Bool × vesRenderToTexture

/-- `vesRenderToTexture::setTexture` (vesRenderToTexture.cpp, lines 42-58). -/
def setTexture (attach : AttachFn) (self : vesRenderToTexture) (texture : TexPtr) :
    Bool × vesRenderToTexture :=
  if texture = 0 then
    (false, self)
  else
    match self.m_internal.m_bufferAttachmentMap.find .ColorAttachment0 with
    | some itr =>
      if itr.2.m_texture = texture then
        (false, self)
      else
        attach self.setDirtyStateOn .ColorAttachment0 texture
    | none => attach self.setDirtyStateOn .ColorAttachment0 texture

/-- `vesRenderToTexture::texture()` (lines 61-71), returning the pointer and
the state the call leaves behind. -/
def texture (self : vesRenderToTexture) : TexPtr × vesRenderToTexture :=
  match self.m_internal.m_bufferAttachmentMap.find .ColorAttachment0 with
  | some itr => (itr.2.m_texture, self)
  | none => (0, self)

/-- `vesRenderToTexture::texture() const` (lines 74-84). -/
def textureConst (self : vesRenderToTexture) : TexPtr × vesRenderToTexture :=
  match self.m_internal.m_bufferAttachmentMap.find .ColorAttachment0 with
  | some constItr => (constItr.2.m_texture, self)
  | none => (0, self)

/-- `vesRenderToTexture::setup` (lines 87-118).  `heap` gives the texture
object behind each non-null pointer; `calls` is the trace so far. -/
def setup (gl : GLDriver) (heap : TexPtr → vesTexture) (self : vesRenderToTexture)
    (calls : List GLCall) : Except Fault (vesRenderToTexture × List GLCall) :=
  if self.m_dirtyState then
    let fb := gl.genFramebuffers calls
    let self1 : vesRenderToTexture :=
      { self with m_internal := { self.m_internal with m_frameBufferHandle := fb } }
    let calls1 := calls ++ [GLCall.glGenFramebuffers 1 fb,
                            GLCall.glBindFramebuffer GL_FRAMEBUFFER fb]
    match self1.m_internal.m_bufferAttachmentMap.find .ColorAttachment0 with
    | some itr =>
      if itr.2.m_texture = 0 then
        .error Fault.nullDereference
      else
        let tex := heap itr.2.m_texture
        let renderBufferHandle := gl.genRenderbuffers calls1
        let self2 : vesRenderToTexture :=
          { self1 with m_internal :=
              { self1.m_internal with
                m_renderBuffersHandle :=
                  self1.m_internal.m_renderBuffersHandle ++ [renderBufferHandle] } }
        let calls2 := calls1 ++
          [GLCall.glGenRenderbuffers 1 renderBufferHandle,
           GLCall.glBindRenderbuffer GL_RENDERBUFFER renderBufferHandle,
           GLCall.glRenderbufferStorage GL_RENDERBUFFER GL_DEPTH_COMPONENT16
             tex.width tex.height,
           GLCall.glBindTexture GL_TEXTURE_2D tex.textureHandle,
           GLCall.glFramebufferTexture2D GL_FRAMEBUFFER itr.1.toNat GL_TEXTURE_2D
             tex.textureHandle 0,
           GLCall.glFramebufferRenderbuffer GL_FRAMEBUFFER GL_DEPTH_ATTACHMENT
             GL_RENDERBUFFER renderBufferHandle]
        .ok (self2.setDirtyStateOff, calls2)
    | none => .ok (self1.setDirtyStateOff, calls1)
  else
    .ok (self, calls)

/-- `vesRenderToTexture::render` (lines 121-135), with `assert` enabled. -/
def render (gl : GLDriver) (heap : TexPtr → vesTexture) (self : vesRenderToTexture)
    (calls : List GLCall) : Except Fault (vesRenderToTexture × List GLCall) :=
  if self.m_internal.m_renderBuffersHandle.isEmpty then
    match setup gl heap self calls with
    | .error e => .error e
    | .ok (self1, calls1) =>
      let calls2 := calls1 ++
        [GLCall.glBindRenderbuffer GL_RENDERBUFFER self1.m_internal.m_frameBufferHandle]
      let itr := self1.m_internal.m_bufferAttachmentMap.begin
      match self1.m_internal.m_renderBuffersHandle.getLast? with
      | none => .error Fault.backOfEmptyVector
      | some back =>
        let calls3 := calls2 ++ [GLCall.glBindRenderbuffer GL_RENDERBUFFER back]
        match itr with
        | none => .error Fault.endIteratorDereference
        | some e =>
          if e.2.m_texture = 0 then
            .error Fault.nullDereference
          else
            .ok (self1, calls3 ++
              [GLCall.glBindTexture GL_TEXTURE_2D (heap e.2.m_texture).textureHandle])
  else
    .error Fault.assertionFailed

/-! ### Call sequences on one object -/

/-- One public call on a `vesRenderToTexture` object. -/
inductive Op where
  | setTexture (texture : TexPtr)
  | setup
  | render
  deriving DecidableEq

/-- Perform one call. -/
def step (attach : AttachFn) (gl : GLDriver) (heap : TexPtr → vesTexture) (op : Op)
    (self : vesRenderToTexture) (calls : List GLCall) :
    Except Fault (vesRenderToTexture × List GLCall) :=
  match op with
  | .setTexture t => .ok ((setTexture attach self t).2, calls)
  | .setup => setup gl heap self calls
  | .render => render gl heap self calls

/-- Perform a sequence of calls, stopping at the first fault. -/
def run (attach : AttachFn) (gl : GLDriver) (heap : TexPtr → vesTexture) :
    List Op → vesRenderToTexture → List GLCall →
    Except Fault (vesRenderToTexture × List GLCall)
  | [], self, calls => .ok (self, calls)
  | op :: rest, self, calls =>
    match step attach gl heap op self calls with
    | .error e => .error e
    | .ok (self1, calls1) => run attach gl heap rest self1 calls1

/-- Whether `setTexture texture` takes the path through `setDirtyStateOn`. -/
def raisesDirty (self : vesRenderToTexture) (texture : TexPtr) : Bool :=
  decide (texture ≠ 0) && decide ((VES.vesRenderToTexture.texture self).1 ≠ texture)

/-- Number of `setTexture` calls of a sequence that take the path through
`setDirtyStateOn`, counted up to the first fault. -/
def dirtyRaises (attach : AttachFn) (gl : GLDriver) (heap : TexPtr → vesTexture) :
    List Op → vesRenderToTexture → List GLCall → Nat
  | [], _, _ => 0
  | op :: rest, self, calls =>
    (match op with
      | .setTexture t => if raisesDirty self t then 1 else 0
      | _ => 0) +
    (match step attach gl heap op self calls with
      | .error _ => 0
      | .ok (self1, calls1) => dirtyRaises attach gl heap rest self1 calls1)

/-- `attach` writes nothing but the attachment map. -/
def AttachFrame (attach : AttachFn) : Prop :=
  ∀ (self : vesRenderToTexture) (k : AttachmentType) (t : TexPtr),
    (attach self k t).2.m_dirtyState = self.m_dirtyState ∧
    (attach self k t).2.m_internal.m_renderBuffersHandle =
      self.m_internal.m_renderBuffersHandle ∧
    (attach self k t).2.m_internal.m_frameBufferHandle =
      self.m_internal.m_frameBufferHandle

end vesRenderToTexture

/-- Number of `glGenFramebuffers` calls in a trace. -/
def countGenFramebuffers (calls : List GLCall) : Nat :=
  calls.countP (fun c => match c with
    | .glGenFramebuffers _ _ => true
    | _ => false)

/-- Number of `glGenRenderbuffers` calls in a trace. -/
def countGenRenderbuffers (calls : List GLCall) : Nat :=
  calls.countP (fun c => match c with
    | .glGenRenderbuffers _ _ => true
    | _ => false)

/-! ### The missing body of `vesFBORenderTarget::attach` -/

/-- Store `v` under key `k` in a key-ordered entry list, replacing an entry
that already has key `k`. -/
def insertEntry (k : AttachmentType) (v : Attachment) :
    List (AttachmentType × Attachment) → List (AttachmentType × Attachment)
  | [] => [(k, v)]
  | e :: rest =>
    if k.toNat < e.1.toNat then (k, v) :: e :: rest
    else if e.1.toNat < k.toNat then e :: insertEntry k v rest
    else (k, v) :: rest

theorem AttachmentType.toNat_injective {a b : AttachmentType} (h : a.toNat = b.toNat) :
    a = b := by
  cases a <;> cases b <;> first | rfl | exact absurd h (by decide)

theorem insertEntry_mem {k : AttachmentType} {v : Attachment}
    {l : List (AttachmentType × Attachment)} {x : AttachmentType × Attachment}
    (hx : x ∈ insertEntry k v l) : x = (k, v) ∨ x ∈ l := by
  induction l with
  | nil => simpa [insertEntry] using hx
  | cons e rest ih =>
    unfold insertEntry at hx
    split_ifs at hx with h1 h2
    · rcases List.mem_cons.1 hx with h | h
      · exact Or.inl h
      · exact Or.inr h
    · rcases List.mem_cons.1 hx with h | h
      · exact Or.inr (h ▸ List.mem_cons_self _ _)
      · rcases ih h with h | h
        · exact Or.inl h
        · exact Or.inr (List.mem_cons_of_mem _ h)
    · rcases List.mem_cons.1 hx with h | h
      · exact Or.inl h
      · exact Or.inr (List.mem_cons_of_mem _ h)

theorem insertEntry_ordered (k : AttachmentType) (v : Attachment)
    (l : List (AttachmentType × Attachment)) (hl : l.Pairwise entryLt) :
    (insertEntry k v l).Pairwise entryLt := by
  induction l with
  | nil => simp [insertEntry]
  | cons e rest ih =>
    have hrest := (List.pairwise_cons.1 hl).2
    have hhead := (List.pairwise_cons.1 hl).1
    unfold insertEntry
    split_ifs with h1 h2
    · refine List.pairwise_cons.2 ⟨?_, hl⟩
      intro x hx
      rcases List.mem_cons.1 hx with h | h
      · subst h; exact h1
      · exact Nat.lt_trans h1 (hhead x h)
    · refine List.pairwise_cons.2 ⟨?_, ih hrest⟩
      intro x hx
      rcases insertEntry_mem hx with h | h
      · subst h; exact h2
      · exact hhead x h
    · have hk : e.1.toNat = k.toNat := by omega
      refine List.pairwise_cons.2 ⟨?_, hrest⟩
      intro x hx
      have := hhead x hx
      unfold entryLt at this ⊢
      simpa [hk] using this

/-- Modelled from the spec: the body of `vesFBORenderTarget::attach`, which is
declared in vesFBORenderTarget.h but not defined in the sources.  It stores
the texture under its key in the attachment map and returns true. -/
def attachStore : vesRenderToTexture.AttachFn :=
  fun self type texture =>
    (true,
     { self with m_internal :=
        { self.m_internal with m_bufferAttachmentMap :=
            ⟨insertEntry type ⟨texture⟩ self.m_internal.m_bufferAttachmentMap.entries,
             insertEntry_ordered type ⟨texture⟩ _
               self.m_internal.m_bufferAttachmentMap.ordered⟩ } })

/-! ## Vertex attributes (vesVertexAttribute.h) -/

/-- What the vertex attributes use of a shader program: `attributeLocation`,
as the slot number handed to the GPU. -/
structure vesShaderProgram where
  attributeLocation : String → Nat

/-- What the vertex attributes read through a `vesRenderState`: the shader
program found under `vesMaterialAttribute::Shader` in `m_material`, the address
of element 0 of `m_mapper->data()->GetPoints()`, and the byte offset of the
field `normal.mData` inside one element. -/
structure vesRenderState where
  program : vesShaderProgram
  pointsAddress : Nat
  normalOffset : Nat

/-- `vesVertexAttribute`: the attribute name given to the constructor. -/
structure vesVertexAttribute where
  m_name : String
  deriving DecidableEq

/-- `vesVertexAttribute::name` (line 32). -/
def vesVertexAttribute.name (self : vesVertexAttribute) : String := self.m_name

namespace vesPositionVertexAttribute

/-- Default value of the constructor argument (line 51). -/
def defaultName : String := "vertexPosition"

/-- Constructor with an explicit name (lines 51-54). -/
def create (name : String) : vesVertexAttribute := ⟨name⟩

/-- Constructor with the argument left out. -/
def createDefault : vesVertexAttribute := create defaultName

/-- `vesPositionVertexAttribute::setupVertexSpecific` (lines 57-65). -/
def setupVertexSpecific (sizeofFloat : Nat) (self : vesVertexAttribute)
    (renderState : vesRenderState) (calls : List GLCall) : List GLCall :=
  let program := renderState.program
  calls ++ [GLCall.glVertexAttribPointer (program.attributeLocation self.m_name) 3 GL_FLOAT 0
    (6 * sizeofFloat) renderState.pointsAddress]

/-- `vesPositionVertexAttribute::activateVertexSpecific` (lines 68-75). -/
def activateVertexSpecific (self : vesVertexAttribute) (renderState : vesRenderState)
    (calls : List GLCall) : List GLCall :=
  let program := renderState.program
  calls ++ [GLCall.glEnableVertexAttribArray (program.attributeLocation self.m_name)]

/-- `vesPositionVertexAttribute::deActivateVertexSpecific` (lines 78-85). -/
def deActivateVertexSpecific (self : vesVertexAttribute) (renderState : vesRenderState)
    (calls : List GLCall) : List GLCall :=
  let program := renderState.program
  calls ++ [GLCall.glDisableVertexAttribArray (program.attributeLocation self.m_name)]

/-- `vesPositionVertexAttribute::update` (lines 88-91): empty body. -/
def update (_self : vesVertexAttribute) (_renderState : vesRenderState)
    (_shaderProgram : vesShaderProgram) (calls : List GLCall) : List GLCall :=
  calls

end vesPositionVertexAttribute

namespace vesNormalVertexAttribute

/-- Default value of the constructor argument (line 99). -/
def defaultName : String := "vertexNormal"

/-- Constructor with an explicit name (lines 99-102). -/
def create (name : String) : vesVertexAttribute := ⟨name⟩

/-- Constructor with the argument left out. -/
def createDefault : vesVertexAttribute := create defaultName

/-- `vesNormalVertexAttribute::setupVertexSpecific` (lines 105-112). -/
def setupVertexSpecific (sizeofFloat : Nat) (self : vesVertexAttribute)
    (renderState : vesRenderState) (calls : List GLCall) : List GLCall :=
  let program := renderState.program
  calls ++ [GLCall.glVertexAttribPointer (program.attributeLocation self.m_name) 3 GL_FLOAT 0
    (6 * sizeofFloat) (renderState.pointsAddress + renderState.normalOffset)]

/-- `vesNormalVertexAttribute::activateVertexSpecific` (lines 115-121). -/
def activateVertexSpecific (self : vesVertexAttribute) (renderState : vesRenderState)
    (calls : List GLCall) : List GLCall :=
  let program := renderState.program
  calls ++ [GLCall.glEnableVertexAttribArray (program.attributeLocation self.m_name)]

/-- `vesNormalVertexAttribute::deActivateVertexSpecific` (lines 124-130). -/
def deActivateVertexSpecific (self : vesVertexAttribute) (renderState : vesRenderState)
    (calls : List GLCall) : List GLCall :=
  let program := renderState.program
  calls ++ [GLCall.glDisableVertexAttribArray (program.attributeLocation self.m_name)]

/-- `vesNormalVertexAttribute::update` (lines 133-136): empty body. -/
def update (_self : vesVertexAttribute) (_renderState : vesRenderState)
    (_shaderProgram : vesShaderProgram) (calls : List GLCall) : List GLCall :=
  calls

end vesNormalVertexAttribute

/-- Modelled from the spec: the GPU's set of enabled vertex-attribute slots.
`glEnableVertexAttribArray` adds its slot, `glDisableVertexAttribArray`
removes it, every other call leaves the set alone. -/
def applyCall (enabled : Finset Nat) : GLCall → Finset Nat
  | .glEnableVertexAttribArray i => insert i enabled
  | .glDisableVertexAttribArray i => enabled.erase i
  | _ => enabled

/-- The enabled slots after a whole trace. -/
def applyCalls (enabled : Finset Nat) (calls : List GLCall) : Finset Nat :=
  calls.foldl applyCall enabled

/-- 1 when the dirty flag is on (one dirty `setup` is pending), else 0. -/
def pendingSetups (self : vesRenderToTexture) : Nat :=
  if self.m_dirtyState then 1 else 0

/-- How the GPU resources of an object may differ between two points of a
run that had `k` dirty-raising `setTexture` calls in between. -/
def GenBound (k : Nat) (self : vesRenderToTexture) (calls : List GLCall)
    (self1 : vesRenderToTexture) (calls1 : List GLCall) : Prop :=
  countGenFramebuffers calls ≤ countGenFramebuffers calls1 ∧
  countGenFramebuffers calls1 + pendingSetups self1 ≤
    countGenFramebuffers calls + pendingSetups self + k ∧
  countGenRenderbuffers calls1 + self.m_internal.m_renderBuffersHandle.length =
    countGenRenderbuffers calls + self1.m_internal.m_renderBuffersHandle.length ∧
  countGenRenderbuffers calls1 + countGenFramebuffers calls ≤
    countGenRenderbuffers calls + countGenFramebuffers calls1 ∧
  (countGenFramebuffers calls1 = countGenFramebuffers calls →
    self1.m_internal.m_frameBufferHandle = self.m_internal.m_frameBufferHandle)

/-! ## Concrete objects used to instantiate the results -/

/-- A driver that numbers the objects of each kind 1, 2, 3, ... -/
def countingDriver : GLDriver :=
  ⟨fun calls => countGenFramebuffers calls + 1, fun calls => countGenRenderbuffers calls + 1⟩

/-- A texture heap: the texture at address `p` is `64 p` by `32 p` and has handle `100 + p`. -/
def sampleHeap : TexPtr → vesTexture :=
  fun p => ⟨64 * p, 32 * p, 100 + p⟩

/-- Attachment map with texture `7` at `ColorAttachment0`. -/
def colorOnlyMap : BufferAttachmentMap :=
  ⟨[(AttachmentType.ColorAttachment0, ⟨7⟩)], List.pairwise_singleton _ _⟩

/-- Attachment map with texture `7` at `ColorAttachment0` and texture `9` at
`DepthAttachment`. -/
def colorDepthMap : BufferAttachmentMap :=
  ⟨[(AttachmentType.ColorAttachment0, ⟨7⟩), (AttachmentType.DepthAttachment, ⟨9⟩)],
   List.pairwise_cons.2 ⟨fun e he => by
      rw [List.mem_singleton.1 he]; exact (by decide : 0x8CE0 < 0x8D00),
     List.pairwise_singleton _ _⟩⟩

/-- Attachment map with texture `9` at `DepthAttachment` only. -/
def depthOnlyMap : BufferAttachmentMap :=
  ⟨[(AttachmentType.DepthAttachment, ⟨9⟩)], List.pairwise_singleton _ _⟩

/-- A freshly constructed object whose dirty flag is on. -/
def freshTarget : vesRenderToTexture := ⟨true, ⟨0, [], BufferAttachmentMap.empty⟩⟩

/-- A dirty object with texture `7` attached and no GPU resources yet. -/
def dirtyTarget : vesRenderToTexture := ⟨true, ⟨0, [], colorOnlyMap⟩⟩

/-- A clean object with texture `7` attached, framebuffer 1 and renderbuffer 1. -/
def cleanTarget : vesRenderToTexture := ⟨false, ⟨1, [1], colorOnlyMap⟩⟩

/-! ## Results -/

open vesRenderToTexture

/-- In a key-ordered entry list, looking up a key that is present yields its entry. -/
theorem find?_of_mem_ordered (k : AttachmentType) (a : Attachment) :
    ∀ (l : List (AttachmentType × Attachment)), l.Pairwise entryLt → (k, a) ∈ l →
      l.find? (fun e => decide (e.1 = k)) = some (k, a) := by
  intro l
  induction l with
  | nil => intro _ h; cases h
  | cons e rest ih =>
    intro hl hmem
    have hhead := (List.pairwise_cons.1 hl).1
    have hrest := (List.pairwise_cons.1 hl).2
    rcases List.mem_cons.1 hmem with h | h
    · subst h; simp
    · have hlt : e.1.toNat < k.toNat := hhead (k, a) h
      have hne : e.1 ≠ k := by
        intro he
        rw [he] at hlt
        exact Nat.lt_irrefl _ hlt
      rw [List.find?_cons_of_neg _ (by simpa using hne)]
      exact ih hrest h

/-- `find` returns the entry stored under a key that is present. -/
theorem BufferAttachmentMap.find_of_mem (m : BufferAttachmentMap) (k : AttachmentType)
    (a : Attachment) (h : (k, a) ∈ m.entries) : m.find k = some (k, a) :=
  find?_of_mem_ordered k a m.entries m.ordered h

/-- `find` returns `end()` for a key that is absent. -/
theorem BufferAttachmentMap.find_of_not_mem (m : BufferAttachmentMap) (k : AttachmentType)
    (h : ∀ a, (k, a) ∉ m.entries) : m.find k = none := by
  unfold BufferAttachmentMap.find
  rw [List.find?_eq_none]
  intro e he hk
  have hk2 : e.1 = k := by simpa using hk
  apply h e.2
  rw [← hk2]
  exact he

/-- An entry returned by `find` is in the map and has the key asked for. -/
theorem BufferAttachmentMap.find_some (m : BufferAttachmentMap) (k : AttachmentType)
    (e : AttachmentType × Attachment) (h : m.find k = some e) :
    e ∈ m.entries ∧ e.1 = k := by
  unfold BufferAttachmentMap.find at h
  refine ⟨List.mem_of_find?_eq_some h, ?_⟩
  have := List.find?_some h
  simpa using this

/-- The stored entry is in the list after `insertEntry`. -/
theorem insertEntry_mem_self (k : AttachmentType) (v : Attachment)
    (l : List (AttachmentType × Attachment)) : (k, v) ∈ insertEntry k v l := by
  induction l with
  | nil => simp [insertEntry]
  | cons e rest ih =>
    unfold insertEntry
    split_ifs
    · exact List.mem_cons_self _ _
    · exact List.mem_cons_of_mem _ ih
    · exact List.mem_cons_self _ _

/-- Value of the non-const `texture()` in terms of `find`. -/
theorem texture_fst (self : vesRenderToTexture) :
    (texture self).1 =
      match self.m_internal.m_bufferAttachmentMap.find .ColorAttachment0 with
      | some itr => itr.2.m_texture
      | none => 0 := by
  unfold texture
  split <;> rfl

/-- `attachStore` writes nothing but the attachment map. -/
theorem attachStore_frame : AttachFrame attachStore := by
  intro self k t
  exact ⟨rfl, rfl, rfl⟩

/-- Whether `setup` runs to completion: it does unless the dirty flag is on and
the `ColorAttachment0` entry holds a null texture pointer. -/
theorem setup_returns_iff (gl : GLDriver) (heap : TexPtr → vesTexture)
    (self : vesRenderToTexture) (calls : List GLCall) :
    (∃ r, setup gl heap self calls = .ok r) ↔
      (self.m_dirtyState = false ∨
        ∀ itr, self.m_internal.m_bufferAttachmentMap.find .ColorAttachment0 = some itr →
          itr.2.m_texture ≠ 0) := by
  unfold setup
  cases hd : self.m_dirtyState with
  | false => simp
  | true =>
    simp only [if_true]
    cases hf : self.m_internal.m_bufferAttachmentMap.find .ColorAttachment0 with
    | none => simp
    | some itr =>
      by_cases ht : itr.2.m_texture = 0
      · simp [ht]
      · simp [ht]

/-- `setup` never touches the attachment map. -/
theorem setup_map (gl : GLDriver) (heap : TexPtr → vesTexture)
    (self : vesRenderToTexture) (calls : List GLCall)
    (self1 : vesRenderToTexture) (calls1 : List GLCall)
    (h : setup gl heap self calls = .ok (self1, calls1)) :
    self1.m_internal.m_bufferAttachmentMap = self.m_internal.m_bufferAttachmentMap := by
  unfold setup at h
  cases hd : self.m_dirtyState with
  | true =>
    simp only [hd, if_true] at h
    split at h
    · split_ifs at h
      simp only [Except.ok.injEq, Prod.mk.injEq] at h
      rw [← h.1]; rfl
    · simp only [Except.ok.injEq, Prod.mk.injEq] at h
      rw [← h.1]; rfl
  | false =>
    simp only [hd, Bool.false_eq_true, if_false, Except.ok.injEq, Prod.mk.injEq] at h
    rw [← h.1]

/-- What a normal return of `render` tells: the handle list was empty on
entry, the embedded `setup` returned, the handle list then had a last element
and the map a first entry with a non-null texture, and three bind calls follow
the calls of `setup`. -/
theorem render_ok_inv (gl : GLDriver) (heap : TexPtr → vesTexture)
    (self : vesRenderToTexture) (calls : List GLCall)
    (self1 : vesRenderToTexture) (calls1 : List GLCall)
    (h : render gl heap self calls = .ok (self1, calls1)) :
    self.m_internal.m_renderBuffersHandle = [] ∧
    ∃ pre back e, setup gl heap self calls = .ok (self1, pre) ∧
      self1.m_internal.m_renderBuffersHandle.getLast? = some back ∧
      self1.m_internal.m_bufferAttachmentMap.begin = some e ∧
      e.2.m_texture ≠ 0 ∧
      calls1 = pre ++
        [GLCall.glBindRenderbuffer GL_RENDERBUFFER self1.m_internal.m_frameBufferHandle,
         GLCall.glBindRenderbuffer GL_RENDERBUFFER back,
         GLCall.glBindTexture GL_TEXTURE_2D (heap e.2.m_texture).textureHandle] := by
  unfold render at h
  split_ifs at h with hempty
  have hnil : self.m_internal.m_renderBuffersHandle = [] := by
    simpa [List.isEmpty_iff] using hempty
  refine ⟨hnil, ?_⟩
  cases hs : setup gl heap self calls with
  | error err => rw [hs] at h; simp at h
  | ok r =>
    obtain ⟨s1, c1⟩ := r
    rw [hs] at h
    simp only at h
    cases hb : s1.m_internal.m_renderBuffersHandle.getLast? with
    | none => rw [hb] at h; simp at h
    | some back =>
      rw [hb] at h
      simp only at h
      cases he : s1.m_internal.m_bufferAttachmentMap.begin with
      | none => rw [he] at h; simp at h
      | some e =>
        rw [he] at h
        simp only at h
        split_ifs at h with hz
        simp only [Except.ok.injEq, Prod.mk.injEq] at h
        obtain ⟨h1, h2⟩ := h
        subst h1
        refine ⟨c1, back, e, rfl, hb, he, hz, ?_⟩
        rw [← h2]
        simp

/-- In a map with a `ColorAttachment0` entry, that entry is the first one. -/
theorem BufferAttachmentMap.begin_of_color_mem (m : BufferAttachmentMap) (a : Attachment)
    (h : (AttachmentType.ColorAttachment0, a) ∈ m.entries) :
    m.begin = some (AttachmentType.ColorAttachment0, a) := by
  obtain ⟨entries, ordered⟩ := m
  unfold BufferAttachmentMap.begin
  simp only at h ⊢
  cases entries with
  | nil => cases h
  | cons e rest =>
    rcases List.mem_cons.1 h with h1 | h1
    · rw [← h1]; rfl
    · have hlt : e.1.toNat < AttachmentType.ColorAttachment0.toNat :=
        (List.pairwise_cons.1 ordered).1 _ h1
      exfalso
      rcases e with ⟨k, v⟩
      cases k
      · exact Nat.lt_irrefl _ hlt
      · have hge : ¬ (AttachmentType.DepthAttachment.toNat <
            AttachmentType.ColorAttachment0.toNat) := by decide
        exact hge hlt

/-- Counts of a dirty or clean `setup`. -/
theorem setup_genBound (gl : GLDriver) (heap : TexPtr → vesTexture)
    (self : vesRenderToTexture) (calls : List GLCall)
    (self1 : vesRenderToTexture) (calls1 : List GLCall)
    (h : setup gl heap self calls = .ok (self1, calls1)) :
    GenBound 0 self calls self1 calls1 := by
  unfold setup at h
  cases hd : self.m_dirtyState with
  | true =>
    simp only [hd, if_true] at h
    split at h
    · split_ifs at h
      simp only [Except.ok.injEq, Prod.mk.injEq] at h
      obtain ⟨h1, h2⟩ := h
      subst h1; subst h2
      simp [GenBound, pendingSetups, setDirtyStateOff, hd, countGenFramebuffers,
        countGenRenderbuffers, List.countP_append, List.countP_cons]
      omega
    · simp only [Except.ok.injEq, Prod.mk.injEq] at h
      obtain ⟨h1, h2⟩ := h
      subst h1; subst h2
      simp [GenBound, pendingSetups, setDirtyStateOff, hd, countGenFramebuffers,
        countGenRenderbuffers, List.countP_append, List.countP_cons]
  | false =>
    simp only [hd, Bool.false_eq_true, if_false, Except.ok.injEq, Prod.mk.injEq] at h
    obtain ⟨h1, h2⟩ := h
    subst h1; subst h2
    simp [GenBound]

/-- Counts of a `render` that returns. -/
theorem render_genBound (gl : GLDriver) (heap : TexPtr → vesTexture)
    (self : vesRenderToTexture) (calls : List GLCall)
    (self1 : vesRenderToTexture) (calls1 : List GLCall)
    (h : render gl heap self calls = .ok (self1, calls1)) :
    GenBound 0 self calls self1 calls1 := by
  obtain ⟨_, pre, back, e, hs, _, _, _, hc⟩ := render_ok_inv gl heap self calls self1 calls1 h
  have hb := setup_genBound gl heap self calls self1 pre hs
  have h1 : countGenFramebuffers calls1 = countGenFramebuffers pre := by
    rw [hc]; simp [countGenFramebuffers, List.countP_append, List.countP_cons]
  have h2 : countGenRenderbuffers calls1 = countGenRenderbuffers pre := by
    rw [hc]; simp [countGenRenderbuffers, List.countP_append, List.countP_cons]
  unfold GenBound at hb ⊢
  rw [h1, h2]
  exact hb

/-- Effect of `setTexture` on the dirty flag and the GPU handles, for an
`attach` that writes only the attachment map. -/
theorem setTexture_genBound (attach : AttachFn) (hframe : AttachFrame attach)
    (self : vesRenderToTexture) (t : TexPtr) (calls : List GLCall) :
    GenBound (if raisesDirty self t then 1 else 0) self calls
      (setTexture attach self t).2 calls := by
  by_cases hr : raisesDirty self t = true
  · have hst : setTexture attach self t = attach self.setDirtyStateOn .ColorAttachment0 t := by
      unfold raisesDirty at hr
      simp only [Bool.and_eq_true, decide_eq_true_eq] at hr
      obtain ⟨h0, hne⟩ := hr
      rw [texture_fst] at hne
      unfold setTexture
      simp only [h0, if_false]
      split
      · next itr hf =>
        rw [hf] at hne
        simp only at hne
        simp [hne]
      · rfl
    obtain ⟨f1, f2, f3⟩ := hframe self.setDirtyStateOn .ColorAttachment0 t
    rw [hst]
    unfold GenBound
    refine ⟨le_refl _, ?_, by rw [f2]; rfl, le_refl _, fun _ => f3⟩
    simp only [hr, if_true, pendingSetups, f1, setDirtyStateOn]
    split_ifs <;> omega
  · have hst : setTexture attach self t = (false, self) := by
      unfold raisesDirty at hr
      simp only [Bool.and_eq_true, decide_eq_true_eq, not_and, not_not] at hr
      unfold setTexture
      by_cases h0 : t = 0
      · simp [h0]
      · simp only [h0, if_false]
        have ht := hr h0
        rw [texture_fst] at ht
        split
        · next itr hf =>
          rw [hf] at ht
          simp only at ht
          simp [ht]
        · next hf =>
          rw [hf] at ht
          exact absurd ht.symm h0
    rw [hst]
    simp [GenBound, hr]

/-- Bounds compose along a run. -/
theorem GenBound.trans {k1 k2 : Nat} {s0 s1 s2 : vesRenderToTexture}
    {c0 c1 c2 : List GLCall} (h1 : GenBound k1 s0 c0 s1 c1) (h2 : GenBound k2 s1 c1 s2 c2) :
    GenBound (k1 + k2) s0 c0 s2 c2 := by
  unfold GenBound at h1 h2 ⊢
  obtain ⟨a1, a2, a3, a4, a5⟩ := h1
  obtain ⟨b1, b2, b3, b4, b5⟩ := h2
  refine ⟨by omega, by omega, by omega, by omega, ?_⟩
  intro h
  have e1 : countGenFramebuffers c1 = countGenFramebuffers c0 := by omega
  have e2 : countGenFramebuffers c2 = countGenFramebuffers c1 := by omega
  rw [b5 e2, a5 e1]

/-- Bound for a whole run that returns. -/
theorem run_genBound (attach : AttachFn) (hframe : AttachFrame attach) (gl : GLDriver)
    (heap : TexPtr → vesTexture) :
    ∀ (ops : List Op) (self : vesRenderToTexture) (calls : List GLCall)
      (self1 : vesRenderToTexture) (calls1 : List GLCall),
      run attach gl heap ops self calls = .ok (self1, calls1) →
      GenBound (dirtyRaises attach gl heap ops self calls) self calls self1 calls1 := by
  intro ops
  induction ops with
  | nil =>
    intro self calls self1 calls1 h
    simp only [run, Except.ok.injEq, Prod.mk.injEq] at h
    obtain ⟨h1, h2⟩ := h
    subst h1; subst h2
    simp [GenBound, dirtyRaises]
  | cons op rest ih =>
    intro self calls self1 calls1 h
    unfold run at h
    unfold dirtyRaises
    cases hs : step attach gl heap op self calls with
    | error err => rw [hs] at h; simp at h
    | ok r =>
      obtain ⟨s1, c1⟩ := r
      rw [hs] at h
      simp only at h ⊢
      have hrest := ih s1 c1 self1 calls1 h
      cases op with
      | setTexture t =>
        simp only [step, Except.ok.injEq, Prod.mk.injEq] at hs
        obtain ⟨h1, h2⟩ := hs
        subst h1; subst h2
        exact (setTexture_genBound attach hframe self t calls).trans hrest
      | setup =>
        have := (setup_genBound gl heap self calls s1 c1 hs).trans hrest
        simpa using this
      | render =>
        have := (render_genBound gl heap self calls s1 c1 hs).trans hrest
        simpa using this

/-- C1: `setup` is gated by the dirty flag.  With the flag off it issues no
call and returns the state unchanged; with the flag on, every normal return
has the flag off, and `setup` does return whenever the `ColorAttachment0`
entry (if any) holds a non-null texture; a second `setup` right after a first
returns the same state and the same trace. -/
theorem setup_gated_by_dirty_flag (gl : GLDriver) (heap : TexPtr → vesTexture) :
    (∀ self calls, self.m_dirtyState = false →
        setup gl heap self calls = .ok (self, calls)) ∧
    (∀ self calls, self.m_dirtyState = true →
        (∀ itr, self.m_internal.m_bufferAttachmentMap.find .ColorAttachment0 = some itr →
          itr.2.m_texture ≠ 0) →
        ∃ self1 calls1, setup gl heap self calls = .ok (self1, calls1) ∧
          self1.m_dirtyState = false) ∧
    (∀ self calls self1 calls1, setup gl heap self calls = .ok (self1, calls1) →
        self.m_dirtyState = true → self1.m_dirtyState = false) ∧
    (∀ self calls self1 calls1, setup gl heap self calls = .ok (self1, calls1) →
        setup gl heap self1 calls1 = .ok (self1, calls1)) := by
  have hoff : ∀ (self : vesRenderToTexture) (calls : List GLCall),
      self.m_dirtyState = false → setup gl heap self calls = .ok (self, calls) := by
    intro self calls h
    simp [setup, h]
  have hclean : ∀ (self : vesRenderToTexture) (calls : List GLCall)
      (self1 : vesRenderToTexture) (calls1 : List GLCall),
      setup gl heap self calls = .ok (self1, calls1) →
      self.m_dirtyState = true → self1.m_dirtyState = false := by
    intro self calls self1 calls1 h hd
    unfold setup at h
    simp only [hd, if_true] at h
    split at h
    · split_ifs at h
      simp only [Except.ok.injEq, Prod.mk.injEq] at h
      rw [← h.1]; rfl
    · simp only [Except.ok.injEq, Prod.mk.injEq] at h
      rw [← h.1]; rfl
  refine ⟨hoff, ?_, hclean, ?_⟩
  · intro self calls hd hnn
    obtain ⟨⟨self1, calls1⟩, hr⟩ := (setup_returns_iff gl heap self calls).2 (Or.inr hnn)
    exact ⟨self1, calls1, hr, hclean self calls self1 calls1 hr hd⟩
  · intro self calls self1 calls1 h
    cases hd : self.m_dirtyState with
    | false =>
      have := hoff self calls hd
      rw [this] at h
      simp only [Except.ok.injEq, Prod.mk.injEq] at h
      rw [← h.1, ← h.2]; exact this
    | true => exact hoff self1 calls1 (hclean self calls self1 calls1 h hd)

/-- C1 at concrete objects: a clean object is left alone, a dirty one comes
back clean, and the second `setup` changes nothing. -/
theorem setup_gated_by_dirty_flag_witness :
    setup countingDriver sampleHeap cleanTarget [] = .ok (cleanTarget, []) ∧
    (∃ self1 calls1, setup countingDriver sampleHeap dirtyTarget [] = .ok (self1, calls1) ∧
        self1.m_dirtyState = false) ∧
    setup countingDriver sampleHeap freshTarget [] =
      .ok (⟨false, ⟨1, [], BufferAttachmentMap.empty⟩⟩,
        [GLCall.glGenFramebuffers 1 1, GLCall.glBindFramebuffer 0x8D40 1]) ∧
    setup countingDriver sampleHeap ⟨false, ⟨1, [], BufferAttachmentMap.empty⟩⟩
        [GLCall.glGenFramebuffers 1 1, GLCall.glBindFramebuffer 0x8D40 1] =
      .ok (⟨false, ⟨1, [], BufferAttachmentMap.empty⟩⟩,
        [GLCall.glGenFramebuffers 1 1, GLCall.glBindFramebuffer 0x8D40 1]) :=
  ⟨(setup_gated_by_dirty_flag countingDriver sampleHeap).1 cleanTarget [] rfl,
   (setup_gated_by_dirty_flag countingDriver sampleHeap).2.1 dirtyTarget [] rfl
     (by intro itr h; cases h; decide),
   rfl,
   (setup_gated_by_dirty_flag countingDriver sampleHeap).2.2.2 freshTarget []
     ⟨false, ⟨1, [], BufferAttachmentMap.empty⟩⟩
     [GLCall.glGenFramebuffers 1 1, GLCall.glBindFramebuffer 0x8D40 1] rfl⟩

/-- C2: the call sequence of a dirty `setup`.  With texture `t` (non-null) at
`ColorAttachment0` the eight calls below are appended in this order, the
generated framebuffer name is stored, and the generated renderbuffer name is
appended to the handle list; without a `ColorAttachment0` entry only the
framebuffer is generated and bound and the handle list is unchanged. -/
theorem setup_call_sequence (gl : GLDriver) (heap : TexPtr → vesTexture)
    (self : vesRenderToTexture) (calls : List GLCall) (hd : self.m_dirtyState = true) :
    (∀ t : TexPtr, t ≠ 0 →
      (AttachmentType.ColorAttachment0, (⟨t⟩ : Attachment)) ∈
        self.m_internal.m_bufferAttachmentMap.entries →
      setup gl heap self calls =
        .ok (⟨false,
              ⟨gl.genFramebuffers calls,
               self.m_internal.m_renderBuffersHandle ++
                 [gl.genRenderbuffers (calls ++
                   [GLCall.glGenFramebuffers 1 (gl.genFramebuffers calls),
                    GLCall.glBindFramebuffer GL_FRAMEBUFFER (gl.genFramebuffers calls)])],
               self.m_internal.m_bufferAttachmentMap⟩⟩,
             calls ++
              [GLCall.glGenFramebuffers 1 (gl.genFramebuffers calls),
               GLCall.glBindFramebuffer GL_FRAMEBUFFER (gl.genFramebuffers calls),
               GLCall.glGenRenderbuffers 1 (gl.genRenderbuffers (calls ++
                   [GLCall.glGenFramebuffers 1 (gl.genFramebuffers calls),
                    GLCall.glBindFramebuffer GL_FRAMEBUFFER (gl.genFramebuffers calls)])),
               GLCall.glBindRenderbuffer GL_RENDERBUFFER (gl.genRenderbuffers (calls ++
                   [GLCall.glGenFramebuffers 1 (gl.genFramebuffers calls),
                    GLCall.glBindFramebuffer GL_FRAMEBUFFER (gl.genFramebuffers calls)])),
               GLCall.glRenderbufferStorage GL_RENDERBUFFER GL_DEPTH_COMPONENT16
                 (heap t).width (heap t).height,
               GLCall.glBindTexture GL_TEXTURE_2D (heap t).textureHandle,
               GLCall.glFramebufferTexture2D GL_FRAMEBUFFER GL_COLOR_ATTACHMENT0 GL_TEXTURE_2D
                 (heap t).textureHandle 0,
               GLCall.glFramebufferRenderbuffer GL_FRAMEBUFFER GL_DEPTH_ATTACHMENT
                 GL_RENDERBUFFER (gl.genRenderbuffers (calls ++
                   [GLCall.glGenFramebuffers 1 (gl.genFramebuffers calls),
                    GLCall.glBindFramebuffer GL_FRAMEBUFFER (gl.genFramebuffers calls)]))])) ∧
    ((∀ a, (AttachmentType.ColorAttachment0, a) ∉
        self.m_internal.m_bufferAttachmentMap.entries) →
      setup gl heap self calls =
        .ok (⟨false,
              ⟨gl.genFramebuffers calls, self.m_internal.m_renderBuffersHandle,
               self.m_internal.m_bufferAttachmentMap⟩⟩,
             calls ++
              [GLCall.glGenFramebuffers 1 (gl.genFramebuffers calls),
               GLCall.glBindFramebuffer GL_FRAMEBUFFER (gl.genFramebuffers calls)])) := by
  constructor
  · intro t ht hmem
    have hf := self.m_internal.m_bufferAttachmentMap.find_of_mem _ _ hmem
    unfold setup
    simp only [hd, if_true, hf, ht, if_false, setDirtyStateOff, AttachmentType.toNat,
      List.append_assoc, List.cons_append, List.nil_append]
  · intro hno
    have hf := self.m_internal.m_bufferAttachmentMap.find_of_not_mem _ hno
    unfold setup
    simp only [hd, if_true, hf, setDirtyStateOff]

/-- C2 at a concrete object: texture `7` (64*7 by 32*7, handle 107) attached,
first framebuffer and first renderbuffer of the driver. -/
theorem setup_call_sequence_witness :
    setup countingDriver sampleHeap dirtyTarget [] =
      .ok (⟨false, ⟨1, [1], colorOnlyMap⟩⟩,
        [GLCall.glGenFramebuffers 1 1,
         GLCall.glBindFramebuffer 0x8D40 1,
         GLCall.glGenRenderbuffers 1 1,
         GLCall.glBindRenderbuffer 0x8D41 1,
         GLCall.glRenderbufferStorage 0x8D41 0x81A5 448 224,
         GLCall.glBindTexture 0x0DE1 107,
         GLCall.glFramebufferTexture2D 0x8D40 0x8CE0 0x0DE1 107 0,
         GLCall.glFramebufferRenderbuffer 0x8D40 0x8D00 0x8D41 1]) ∧
    setup countingDriver sampleHeap freshTarget [] =
      .ok (⟨false, ⟨1, [], BufferAttachmentMap.empty⟩⟩,
        [GLCall.glGenFramebuffers 1 1, GLCall.glBindFramebuffer 0x8D40 1]) :=
  ⟨(setup_call_sequence countingDriver sampleHeap dirtyTarget [] rfl).1 7 (by decide)
      (List.mem_singleton.2 rfl),
   (setup_call_sequence countingDriver sampleHeap freshTarget [] rfl).2
      (fun _ h => by cases h)⟩

/-- C4: null-pointer guard of `setTexture`.  Whatever `attach` does, a null
argument returns false and hands back the object unchanged, so `texture()`
reads the same pointer before and after. -/
theorem setTexture_null (attach : AttachFn) (self : vesRenderToTexture) :
    setTexture attach self 0 = (false, self) ∧
    (texture (setTexture attach self 0).2).1 = (texture self).1 := by
  have h : setTexture attach self 0 = (false, self) := by simp [setTexture]
  exact ⟨h, by rw [h]⟩

/-- C5: the attachment map holds at most one entry per attachment point, and
`texture()` reads the `ColorAttachment0` entry: it returns the stored pointer
when the entry exists and null otherwise (so also when only a
`DepthAttachment` entry exists); both overloads agree and leave the object
unchanged. -/
theorem texture_reads_color_attachment (self : vesRenderToTexture) :
    (∀ k a b, (k, a) ∈ self.m_internal.m_bufferAttachmentMap.entries →
        (k, b) ∈ self.m_internal.m_bufferAttachmentMap.entries → a = b) ∧
    (∀ a, (AttachmentType.ColorAttachment0, a) ∈
        self.m_internal.m_bufferAttachmentMap.entries → (texture self).1 = a.m_texture) ∧
    ((∀ a, (AttachmentType.ColorAttachment0, a) ∉
        self.m_internal.m_bufferAttachmentMap.entries) → (texture self).1 = 0) ∧
    (∀ a, self.m_internal.m_bufferAttachmentMap.entries =
        [(AttachmentType.DepthAttachment, a)] → (texture self).1 = 0) ∧
    textureConst self = texture self ∧
    (texture self).2 = self ∧ (textureConst self).2 = self := by
  have hnone : (∀ a, (AttachmentType.ColorAttachment0, a) ∉
        self.m_internal.m_bufferAttachmentMap.entries) → (texture self).1 = 0 := by
    intro hno
    rw [texture_fst, self.m_internal.m_bufferAttachmentMap.find_of_not_mem _ hno]
  refine ⟨?_, ?_, hnone, ?_, ?_, ?_, ?_⟩
  · intro k a b ha hb
    have h1 := self.m_internal.m_bufferAttachmentMap.find_of_mem k a ha
    have h2 := self.m_internal.m_bufferAttachmentMap.find_of_mem k b hb
    rw [h1] at h2
    simp only [Option.some.injEq, Prod.mk.injEq, true_and] at h2
    exact h2
  · intro a ha
    rw [texture_fst, self.m_internal.m_bufferAttachmentMap.find_of_mem _ a ha]
  · intro a ha
    apply hnone
    intro b hb
    rw [ha] at hb
    simp at hb
  · unfold textureConst texture
    split <;> rfl
  · unfold texture
    split <;> rfl
  · unfold textureConst
    split <;> rfl

/-- C5 at concrete objects: texture `7` is read from the color entry, and a
map with only a depth entry (texture `9`) reads as null. -/
theorem texture_reads_color_attachment_witness :
    (texture dirtyTarget).1 = 7 ∧
    (texture ⟨true, ⟨0, [], depthOnlyMap⟩⟩).1 = 0 :=
  ⟨(texture_reads_color_attachment dirtyTarget).2.1 ⟨7⟩ (List.mem_singleton.2 rfl),
   (texture_reads_color_attachment ⟨true, ⟨0, [], depthOnlyMap⟩⟩).2.2.2.1 ⟨9⟩ rfl⟩

/-- C8: `setTexture` takes the path through `setDirtyStateOn` exactly when its
argument is non-null and differs from the `ColorAttachment0` texture.  On the
other path it returns false with the object unchanged, whatever `attach` is;
on this path its result is that of `attach` run on the object with the dirty
flag on, so the flag is on afterwards for every `attach` that leaves it alone.
With `attach` storing the texture, `texture()` returns `t` after
`setTexture t` for every non-null `t`. -/
theorem setTexture_dirty_iff (attach : AttachFn) (self : vesRenderToTexture) (t : TexPtr) :
    ((t = 0 ∨ (texture self).1 = t) → setTexture attach self t = (false, self)) ∧
    (t ≠ 0 → (texture self).1 ≠ t →
      setTexture attach self t = attach self.setDirtyStateOn .ColorAttachment0 t ∧
      self.setDirtyStateOn.m_dirtyState = true ∧
      (AttachFrame attach → (setTexture attach self t).2.m_dirtyState = true)) ∧
    (t ≠ 0 → (texture (setTexture attachStore self t).2).1 = t) := by
  have hsame : (t = 0 ∨ (texture self).1 = t) → setTexture attach self t = (false, self) := by
    intro h
    by_cases h0 : t = 0
    · simp [setTexture, h0]
    · have ht : (texture self).1 = t := h.resolve_left h0
      rw [texture_fst] at ht
      unfold setTexture
      simp only [h0, if_false]
      split
      · next itr hf =>
        rw [hf] at ht
        simp only at ht
        simp [ht]
      · next hf =>
        rw [hf] at ht
        exact absurd ht.symm h0
  have hpath : ∀ (att : AttachFn), t ≠ 0 → (texture self).1 ≠ t →
      setTexture att self t = att self.setDirtyStateOn .ColorAttachment0 t := by
    intro att h0 hne
    rw [texture_fst] at hne
    unfold setTexture
    simp only [h0, if_false]
    split
    · next itr hf =>
      rw [hf] at hne
      simp only at hne
      simp [hne]
    · rfl
  refine ⟨hsame, ?_, ?_⟩
  · intro h0 hne
    refine ⟨hpath attach h0 hne, rfl, ?_⟩
    intro hframe
    rw [hpath attach h0 hne, (hframe _ _ _).1]
    rfl
  · intro h0
    by_cases heq : (texture self).1 = t
    · have := (show setTexture attachStore self t = (false, self) by
        by_cases h00 : t = 0
        · exact absurd h00 h0
        · have ht := heq
          rw [texture_fst] at ht
          unfold setTexture
          simp only [h0, if_false]
          split
          · next itr hf =>
            rw [hf] at ht
            simp only at ht
            simp [ht]
          · next hf =>
            rw [hf] at ht
            exact absurd ht.symm h0)
      rw [this]
      exact heq
    · rw [hpath attachStore h0 heq, texture_fst]
      have hmem : (AttachmentType.ColorAttachment0, (⟨t⟩ : Attachment)) ∈
          (attachStore self.setDirtyStateOn .ColorAttachment0 t).2.m_internal.m_bufferAttachmentMap.entries :=
        insertEntry_mem_self _ _ _
      rw [BufferAttachmentMap.find_of_mem _ _ _ hmem]

/-- C8 at concrete objects: re-setting texture `7` changes nothing, setting
texture `8` raises the flag of a clean object and `texture()` then reads `8`. -/
theorem setTexture_dirty_iff_witness :
    setTexture attachStore cleanTarget 7 = (false, cleanTarget) ∧
    (setTexture attachStore cleanTarget 8).2.m_dirtyState = true ∧
    (texture (setTexture attachStore cleanTarget 8).2).1 = 8 :=
  ⟨(setTexture_dirty_iff attachStore cleanTarget 7).1 (Or.inr rfl),
   ((setTexture_dirty_iff attachStore cleanTarget 8).2.1 (by decide) (by decide)).2.2
     attachStore_frame,
   (setTexture_dirty_iff attachStore cleanTarget 8).2.2 (by decide)⟩

/-- C6: stride and pointer of the vertex attributes.  Each
`setupVertexSpecific` appends exactly one `glVertexAttribPointer` call: slot
`attributeLocation(name())`, 3 components, `GL_FLOAT`, not normalized, stride
`6 * sizeof(float)` (24 for a 4-byte float); the position pointer is the
address of the first point, the normal pointer is that address plus the
offset of the normal field. -/
theorem setupVertexSpecific_call (sizeofFloat : Nat) (self : vesVertexAttribute)
    (renderState : vesRenderState) (calls : List GLCall) :
    vesPositionVertexAttribute.setupVertexSpecific sizeofFloat self renderState calls =
      calls ++ [GLCall.glVertexAttribPointer
        (renderState.program.attributeLocation self.name) 3 GL_FLOAT 0 (6 * sizeofFloat)
        renderState.pointsAddress] ∧
    vesNormalVertexAttribute.setupVertexSpecific sizeofFloat self renderState calls =
      calls ++ [GLCall.glVertexAttribPointer
        (renderState.program.attributeLocation self.name) 3 GL_FLOAT 0 (6 * sizeofFloat)
        (renderState.pointsAddress + renderState.normalOffset)] ∧
    vesPositionVertexAttribute.setupVertexSpecific 4 self renderState calls =
      calls ++ [GLCall.glVertexAttribPointer
        (renderState.program.attributeLocation self.name) 3 0x1406 0 24
        renderState.pointsAddress] ∧
    vesNormalVertexAttribute.setupVertexSpecific 4 self renderState calls =
      calls ++ [GLCall.glVertexAttribPointer
        (renderState.program.attributeLocation self.name) 3 0x1406 0 24
        (renderState.pointsAddress + renderState.normalOffset)] :=
  ⟨rfl, rfl, rfl, rfl⟩

/-- C7: enable and disable target the slot that setup configured.  For both
attribute classes `activateVertexSpecific` appends one enable call and
`deActivateVertexSpecific` one disable call on `attributeLocation(name())`,
the slot of the `glVertexAttribPointer` call; `name()` is the constructor
argument (default "vertexPosition" resp. "vertexNormal"); on the set of
enabled slots, activate followed by deactivate leaves that slot disabled and
all other slots as they were; `update` issues no call. -/
theorem activate_deactivate_slot (sizeofFloat : Nat) (self : vesVertexAttribute)
    (renderState : vesRenderState) (shaderProgram : vesShaderProgram)
    (calls : List GLCall) (enabled : Finset Nat) (name : String) :
    (vesPositionVertexAttribute.activateVertexSpecific self renderState calls =
        calls ++ [GLCall.glEnableVertexAttribArray
          (renderState.program.attributeLocation self.name)] ∧
     vesPositionVertexAttribute.deActivateVertexSpecific self renderState calls =
        calls ++ [GLCall.glDisableVertexAttribArray
          (renderState.program.attributeLocation self.name)] ∧
     vesNormalVertexAttribute.activateVertexSpecific self renderState calls =
        calls ++ [GLCall.glEnableVertexAttribArray
          (renderState.program.attributeLocation self.name)] ∧
     vesNormalVertexAttribute.deActivateVertexSpecific self renderState calls =
        calls ++ [GLCall.glDisableVertexAttribArray
          (renderState.program.attributeLocation self.name)]) ∧
    (∃ size type normalized stride pointer,
        vesPositionVertexAttribute.setupVertexSpecific sizeofFloat self renderState calls =
          calls ++ [GLCall.glVertexAttribPointer
            (renderState.program.attributeLocation self.name)
            size type normalized stride pointer]) ∧
    (∃ size type normalized stride pointer,
        vesNormalVertexAttribute.setupVertexSpecific sizeofFloat self renderState calls =
          calls ++ [GLCall.glVertexAttribPointer
            (renderState.program.attributeLocation self.name)
            size type normalized stride pointer]) ∧
    ((vesPositionVertexAttribute.create name).name = name ∧
     (vesNormalVertexAttribute.create name).name = name ∧
     vesPositionVertexAttribute.createDefault.name = "vertexPosition" ∧
     vesNormalVertexAttribute.createDefault.name = "vertexNormal") ∧
    (renderState.program.attributeLocation self.name ∉
        applyCalls enabled (vesPositionVertexAttribute.deActivateVertexSpecific self renderState
          (vesPositionVertexAttribute.activateVertexSpecific self renderState [])) ∧
     renderState.program.attributeLocation self.name ∉
        applyCalls enabled (vesNormalVertexAttribute.deActivateVertexSpecific self renderState
          (vesNormalVertexAttribute.activateVertexSpecific self renderState []))) ∧
    (∀ slot, slot ≠ renderState.program.attributeLocation self.name →
        ((slot ∈ applyCalls enabled
            (vesPositionVertexAttribute.deActivateVertexSpecific self renderState
              (vesPositionVertexAttribute.activateVertexSpecific self renderState [])) ↔
          slot ∈ enabled) ∧
         (slot ∈ applyCalls enabled
            (vesNormalVertexAttribute.deActivateVertexSpecific self renderState
              (vesNormalVertexAttribute.activateVertexSpecific self renderState [])) ↔
          slot ∈ enabled))) ∧
    (vesPositionVertexAttribute.update self renderState shaderProgram calls = calls ∧
     vesNormalVertexAttribute.update self renderState shaderProgram calls = calls) := by
  have hp : applyCalls enabled (vesPositionVertexAttribute.deActivateVertexSpecific self
      renderState (vesPositionVertexAttribute.activateVertexSpecific self renderState [])) =
      (insert (renderState.program.attributeLocation self.name) enabled).erase
        (renderState.program.attributeLocation self.name) := rfl
  have hn : applyCalls enabled (vesNormalVertexAttribute.deActivateVertexSpecific self
      renderState (vesNormalVertexAttribute.activateVertexSpecific self renderState [])) =
      (insert (renderState.program.attributeLocation self.name) enabled).erase
        (renderState.program.attributeLocation self.name) := rfl
  refine ⟨⟨rfl, rfl, rfl, rfl⟩, ⟨_, _, _, _, _, rfl⟩, ⟨_, _, _, _, _, rfl⟩,
    ⟨rfl, rfl, rfl, rfl⟩, ⟨?_, ?_⟩, ?_, ⟨rfl, rfl⟩⟩
  · rw [hp]; simp
  · rw [hn]; simp
  · intro slot hslot
    rw [hp, hn]
    simp [Finset.mem_erase, Finset.mem_insert, hslot]

/-- C7 at concrete objects: with slots 0 and 5 enabled and "vertexPosition"
bound to slot 5, activate then deactivate leaves exactly slot 0 enabled. -/
theorem activate_deactivate_slot_witness :
    (0 : Nat) ∈ applyCalls {0, 5}
      (vesPositionVertexAttribute.deActivateVertexSpecific
        vesPositionVertexAttribute.createDefault ⟨⟨fun _ => 5⟩, 4096, 12⟩
        (vesPositionVertexAttribute.activateVertexSpecific
          vesPositionVertexAttribute.createDefault ⟨⟨fun _ => 5⟩, 4096, 12⟩ [])) :=
  (((activate_deactivate_slot 4 vesPositionVertexAttribute.createDefault
      ⟨⟨fun _ => 5⟩, 4096, 12⟩ ⟨fun _ => 5⟩ [] {0, 5} "n").2.2.2.2.2.1 0 (by decide)).1).2
    (by decide)

/-- C10: the texture that `render` binds is the color texture.  In a map with
a `ColorAttachment0` entry (with or without a `DepthAttachment` entry) the
first entry is that entry, whose texture is what `texture()` returns.  When
`render` runs (dirty flag on, empty handle list, non-null texture) it issues
the calls of `setup` and then binds the stored framebuffer name as a
renderbuffer, the generated renderbuffer (the last handle of the list), and
the handle of the texture that `setup` attached to the framebuffer; and
`render` returns normally in no other case. -/
theorem render_binds_color_texture (gl : GLDriver) (heap : TexPtr → vesTexture)
    (self : vesRenderToTexture) (calls : List GLCall) (a : Attachment)
    (hmem : (AttachmentType.ColorAttachment0, a) ∈
      self.m_internal.m_bufferAttachmentMap.entries) :
    self.m_internal.m_bufferAttachmentMap.begin = some (AttachmentType.ColorAttachment0, a) ∧
    (texture self).1 = a.m_texture ∧
    (self.m_dirtyState = true → self.m_internal.m_renderBuffersHandle = [] →
      a.m_texture ≠ 0 →
      render gl heap self calls =
        .ok (⟨false,
              ⟨gl.genFramebuffers calls,
               [gl.genRenderbuffers (calls ++
                   [GLCall.glGenFramebuffers 1 (gl.genFramebuffers calls),
                    GLCall.glBindFramebuffer GL_FRAMEBUFFER (gl.genFramebuffers calls)])],
               self.m_internal.m_bufferAttachmentMap⟩⟩,
             calls ++
              [GLCall.glGenFramebuffers 1 (gl.genFramebuffers calls),
               GLCall.glBindFramebuffer GL_FRAMEBUFFER (gl.genFramebuffers calls),
               GLCall.glGenRenderbuffers 1 (gl.genRenderbuffers (calls ++
                   [GLCall.glGenFramebuffers 1 (gl.genFramebuffers calls),
                    GLCall.glBindFramebuffer GL_FRAMEBUFFER (gl.genFramebuffers calls)])),
               GLCall.glBindRenderbuffer GL_RENDERBUFFER (gl.genRenderbuffers (calls ++
                   [GLCall.glGenFramebuffers 1 (gl.genFramebuffers calls),
                    GLCall.glBindFramebuffer GL_FRAMEBUFFER (gl.genFramebuffers calls)])),
               GLCall.glRenderbufferStorage GL_RENDERBUFFER GL_DEPTH_COMPONENT16
                 (heap (texture self).1).width (heap (texture self).1).height,
               GLCall.glBindTexture GL_TEXTURE_2D (heap (texture self).1).textureHandle,
               GLCall.glFramebufferTexture2D GL_FRAMEBUFFER GL_COLOR_ATTACHMENT0 GL_TEXTURE_2D
                 (heap (texture self).1).textureHandle 0,
               GLCall.glFramebufferRenderbuffer GL_FRAMEBUFFER GL_DEPTH_ATTACHMENT
                 GL_RENDERBUFFER (gl.genRenderbuffers (calls ++
                   [GLCall.glGenFramebuffers 1 (gl.genFramebuffers calls),
                    GLCall.glBindFramebuffer GL_FRAMEBUFFER (gl.genFramebuffers calls)])),
               GLCall.glBindRenderbuffer GL_RENDERBUFFER (gl.genFramebuffers calls),
               GLCall.glBindRenderbuffer GL_RENDERBUFFER (gl.genRenderbuffers (calls ++
                   [GLCall.glGenFramebuffers 1 (gl.genFramebuffers calls),
                    GLCall.glBindFramebuffer GL_FRAMEBUFFER (gl.genFramebuffers calls)])),
               GLCall.glBindTexture GL_TEXTURE_2D (heap (texture self).1).textureHandle])) ∧
    (∀ self1 calls1, render gl heap self calls = .ok (self1, calls1) →
      self.m_dirtyState = true ∧ self.m_internal.m_renderBuffersHandle = [] ∧
      a.m_texture ≠ 0) := by
  have hf := self.m_internal.m_bufferAttachmentMap.find_of_mem _ _ hmem
  have hb := self.m_internal.m_bufferAttachmentMap.begin_of_color_mem _ hmem
  have ht : (texture self).1 = a.m_texture := by rw [texture_fst, hf]
  refine ⟨hb, ht, ?_, ?_⟩
  · intro hd hl hne
    rw [ht]
    unfold render setup
    simp only [hl, List.isEmpty_nil, if_true, hd, hf, hne, if_false, setDirtyStateOff,
      List.nil_append, List.getLast?_singleton, hb, AttachmentType.toNat,
      List.append_assoc, List.cons_append]
  · intro self1 calls1 h
    obtain ⟨hl, pre, back, e, hs, hback, _, _, _⟩ := render_ok_inv gl heap self calls self1 calls1 h
    have hd : self.m_dirtyState = true := by
      cases hd : self.m_dirtyState with
      | true => rfl
      | false =>
        exfalso
        have hs2 : setup gl heap self calls = .ok (self, calls) := by simp [setup, hd]
        rw [hs2] at hs
        simp only [Except.ok.injEq, Prod.mk.injEq] at hs
        rw [← hs.1, hl] at hback
        simp at hback
    refine ⟨hd, hl, ?_⟩
    have hret := (setup_returns_iff gl heap self calls).1 ⟨_, hs⟩
    rcases hret with hoff | hnn
    · rw [hd] at hoff; cases hoff
    · exact hnn _ hf

/-- C10 at a concrete object: texture `7` (handle 107) at the color point and
texture `9` at the depth point; `render` ends by binding renderbuffer 1 and
texture 107. -/
theorem render_binds_color_texture_witness :
    render countingDriver sampleHeap ⟨true, ⟨0, [], colorDepthMap⟩⟩ [] =
      .ok (⟨false, ⟨1, [1], colorDepthMap⟩⟩,
        [GLCall.glGenFramebuffers 1 1,
         GLCall.glBindFramebuffer 0x8D40 1,
         GLCall.glGenRenderbuffers 1 1,
         GLCall.glBindRenderbuffer 0x8D41 1,
         GLCall.glRenderbufferStorage 0x8D41 0x81A5 448 224,
         GLCall.glBindTexture 0x0DE1 107,
         GLCall.glFramebufferTexture2D 0x8D40 0x8CE0 0x0DE1 107 0,
         GLCall.glFramebufferRenderbuffer 0x8D40 0x8D00 0x8D41 1,
         GLCall.glBindRenderbuffer 0x8D41 1,
         GLCall.glBindRenderbuffer 0x8D41 1,
         GLCall.glBindTexture 0x0DE1 107]) :=
  (render_binds_color_texture countingDriver sampleHeap ⟨true, ⟨0, [], colorDepthMap⟩⟩ [] ⟨7⟩
    (List.mem_cons_self _ _)).2.2.1 rfl rfl (by decide)

/-- After a `render` that returned, the next `render` fails its entry
assertion: the handle list is no longer empty. -/
theorem render_after_render_fails (gl : GLDriver) (heap : TexPtr → vesTexture)
    (self : vesRenderToTexture) (calls : List GLCall)
    (self1 : vesRenderToTexture) (calls1 : List GLCall)
    (h : render gl heap self calls = .ok (self1, calls1)) (calls2 : List GLCall) :
    render gl heap self1 calls2 = .error Fault.assertionFailed := by
  obtain ⟨_, pre, back, e, _, hback, _, _, _⟩ := render_ok_inv gl heap self calls self1 calls1 h
  have hne : self1.m_internal.m_renderBuffersHandle.isEmpty = false := by
    cases hl : self1.m_internal.m_renderBuffersHandle with
    | nil => rw [hl] at hback; simp at hback
    | cons x xs => rfl
  unfold render
  simp [hne]

/-- C9: two consecutive `render` calls on a dirty object with texture `7` at
`ColorAttachment0`.  The first call returns and leaves renderbuffer 1 in the
handle list; the second call fails the entry assertion
`m_renderBuffersHandle.empty()`.  The same happens on a new object after
`setTexture 7`, whatever its dirty flag was. -/
theorem second_render_fails_assertion :
    run attachStore countingDriver sampleHeap [Op.render] dirtyTarget [] =
      .ok (⟨false, ⟨1, [1], colorOnlyMap⟩⟩,
        [GLCall.glGenFramebuffers 1 1,
         GLCall.glBindFramebuffer 0x8D40 1,
         GLCall.glGenRenderbuffers 1 1,
         GLCall.glBindRenderbuffer 0x8D41 1,
         GLCall.glRenderbufferStorage 0x8D41 0x81A5 448 224,
         GLCall.glBindTexture 0x0DE1 107,
         GLCall.glFramebufferTexture2D 0x8D40 0x8CE0 0x0DE1 107 0,
         GLCall.glFramebufferRenderbuffer 0x8D40 0x8D00 0x8D41 1,
         GLCall.glBindRenderbuffer 0x8D41 1,
         GLCall.glBindRenderbuffer 0x8D41 1,
         GLCall.glBindTexture 0x0DE1 107]) ∧
    run attachStore countingDriver sampleHeap [Op.render, Op.render] dirtyTarget [] =
      .error Fault.assertionFailed ∧
    run attachStore countingDriver sampleHeap [Op.setTexture 7, Op.render, Op.render]
        ⟨false, ⟨0, [], BufferAttachmentMap.empty⟩⟩ [] =
      .error Fault.assertionFailed :=
  ⟨rfl, rfl, rfl⟩

/-- C3 as stated fails: after `setTexture 7; setup; setTexture 8; setup` on a
fresh object, both generating calls have been issued twice, the handle list
holds two renderbuffers, and framebuffer name 1 (stored by the first `setup`)
has been overwritten by name 2. -/
theorem gen_calls_repeat_after_texture_change :
    (∃ self1 calls1,
      run attachStore countingDriver sampleHeap [Op.setTexture 7, Op.setup] freshTarget [] =
        .ok (self1, calls1) ∧
      self1.m_internal.m_frameBufferHandle = 1 ∧
      self1.m_internal.m_renderBuffersHandle = [1]) ∧
    (∃ self2 calls2,
      run attachStore countingDriver sampleHeap
        [Op.setTexture 7, Op.setup, Op.setTexture 8, Op.setup] freshTarget [] =
        .ok (self2, calls2) ∧
      countGenFramebuffers calls2 = 2 ∧
      countGenRenderbuffers calls2 = 2 ∧
      self2.m_internal.m_renderBuffersHandle = [1, 2] ∧
      self2.m_internal.m_frameBufferHandle = 2) :=
  ⟨⟨_, _, rfl, rfl, rfl⟩, ⟨_, _, rfl, rfl, rfl, rfl, rfl⟩⟩

/-- C3, amended: GPU resources are created once per raising of the dirty flag.
For an `attach` that writes only the attachment map and every sequence of
`setTexture`, `setup` and `render` calls that runs to its end, the numbers of
`glGenFramebuffers` calls, of `glGenRenderbuffers` calls and of handles added
to the list are each at most (1 if the dirty flag was on at the start) plus
the number of `setTexture` calls that raised the dirty flag; the stored
framebuffer name changes only when `glGenFramebuffers` is issued; so a
sequence in which no `setTexture` raises the flag issues each generating call
at most once. -/
theorem gen_calls_bounded_by_dirty_raises (attach : AttachFn) (hframe : AttachFrame attach)
    (gl : GLDriver) (heap : TexPtr → vesTexture) (ops : List Op)
    (self : vesRenderToTexture) (calls : List GLCall)
    (self1 : vesRenderToTexture) (calls1 : List GLCall)
    (h : run attach gl heap ops self calls = .ok (self1, calls1)) :
    countGenFramebuffers calls1 ≤
      countGenFramebuffers calls + pendingSetups self +
        dirtyRaises attach gl heap ops self calls ∧
    countGenRenderbuffers calls1 ≤
      countGenRenderbuffers calls + pendingSetups self +
        dirtyRaises attach gl heap ops self calls ∧
    self1.m_internal.m_renderBuffersHandle.length ≤
      self.m_internal.m_renderBuffersHandle.length + pendingSetups self +
        dirtyRaises attach gl heap ops self calls ∧
    (countGenFramebuffers calls1 = countGenFramebuffers calls →
      self1.m_internal.m_frameBufferHandle = self.m_internal.m_frameBufferHandle) ∧
    (dirtyRaises attach gl heap ops self calls = 0 →
      countGenFramebuffers calls1 ≤ countGenFramebuffers calls + 1 ∧
      countGenRenderbuffers calls1 ≤ countGenRenderbuffers calls + 1 ∧
      self1.m_internal.m_renderBuffersHandle.length ≤
        self.m_internal.m_renderBuffersHandle.length + 1) := by
  obtain ⟨b1, b2, b3, b4, b5⟩ := run_genBound attach hframe gl heap ops self calls self1 calls1 h
  have hp : pendingSetups self ≤ 1 := by
    unfold pendingSetups; split_ifs <;> omega
  refine ⟨by omega, by omega, by omega, b5, ?_⟩
  intro h0
  refine ⟨by omega, by omega, by omega⟩

/-- C3, amended, at a concrete run: `setTexture 7; setup; setTexture 7; setup;
setup` on a fresh object raises the flag once and generates one framebuffer
and one renderbuffer. -/
theorem gen_calls_bounded_by_dirty_raises_witness :
    countGenFramebuffers
        [GLCall.glGenFramebuffers 1 1,
         GLCall.glBindFramebuffer 0x8D40 1,
         GLCall.glGenRenderbuffers 1 1,
         GLCall.glBindRenderbuffer 0x8D41 1,
         GLCall.glRenderbufferStorage 0x8D41 0x81A5 448 224,
         GLCall.glBindTexture 0x0DE1 107,
         GLCall.glFramebufferTexture2D 0x8D40 0x8CE0 0x0DE1 107 0,
         GLCall.glFramebufferRenderbuffer 0x8D40 0x8D00 0x8D41 1] ≤
      countGenFramebuffers [] + pendingSetups freshTarget +
        dirtyRaises attachStore countingDriver sampleHeap
          [Op.setTexture 7, Op.setup, Op.setTexture 7, Op.setup, Op.setup] freshTarget [] :=
  (gen_calls_bounded_by_dirty_raises attachStore attachStore_frame countingDriver sampleHeap
    [Op.setTexture 7, Op.setup, Op.setTexture 7, Op.setup, Op.setup] freshTarget []
    ⟨false, ⟨1, [1], colorOnlyMap⟩⟩ _ rfl).1

end VES
